import Mathlib

/- Verification of the Image-Search browser client (src/static/furniture.js and the
   two earlier revisions of the same module, src/unnamed/part_000 and part_001).

   Modelling conventions for the shallow embedding of the JavaScript source:
   * JavaScript strings are Lean `String`s; absent / null / undefined values are `none`.
   * Numeric field values are represented by their decimal string rendering, which is
     what template interpolation produces for them.
   * `x ?? y` (nullish coalescing) is `jsNullish`, `x || y` on strings is `jsOrDefault`
     (the empty string is the only falsy string), `${x}` on a possibly-undefined value
     is `jsTemplateOpt` (undefined prints as "undefined").
   * DOM state (results region, count label, suggestion view, alert dialogs) is carried
     explicitly; a thrown exception is an explicit Bool / Except-style flag. -/

/-- Whitespace characters removed by JavaScript's String.prototype.trim (ASCII subset). -/
def jsWhitespace (c : Char) : Bool :=
  c == ' ' || c == '\t' || c == '\n' || c == '\r'

/-- Model of JavaScript `s.trim()`. -/
def jsTrim (s : String) : String :=
  String.mk (((s.data.dropWhile jsWhitespace).reverse.dropWhile jsWhitespace).reverse)

/-- Model of JavaScript `s.toLowerCase()` (ASCII case folding). -/
def jsToLower (s : String) : String :=
  String.mk (s.data.map Char.toLower)

/-- Character-list test: the first argument is a leading segment of the second. -/
def hasPrefixChars : List Char → List Char → Bool
  | [], _ => true
  | _ :: _, [] => false
  | p :: ps, c :: cs => p == c && hasPrefixChars ps cs

/-- Character-list substring occurrence test. -/
def hasSubChars (pat : List Char) : List Char → Bool
  | [] => pat.isEmpty
  | c :: rest => hasPrefixChars pat (c :: rest) || hasSubChars pat rest

/-- String substring occurrence test (`hay` contains `pat`). -/
def strHasSub (hay pat : String) : Bool :=
  hasSubChars pat.data hay.data

/-- Model of JavaScript `s.startsWith(pat)`. -/
def jsStartsWith (s pat : String) : Bool :=
  hasPrefixChars pat.data s.data

/-- Auxiliary splitter: current segment plus the list of completed later segments. -/
def splitAux (sep : Char) : List Char → List Char × List (List Char)
  | [] => ([], [])
  | c :: rest =>
    let r := splitAux sep rest
    if c == sep then ([], r.1 :: r.2) else (c :: r.1, r.2)

/-- Model of JavaScript `s.split(sep)` over character lists; always non-empty. -/
def splitListOn (sep : Char) (l : List Char) : List (List Char) :=
  (splitAux sep l).1 :: (splitAux sep l).2

/-- Model of JavaScript `s.split("/").pop()`: the last path component. -/
def jsSplitPop (s : String) : String :=
  String.mk ((splitListOn '/' s.data).getLastD [])

/-- Model of JavaScript `x ?? d` for a possibly-absent string value. -/
def jsNullish (v : Option String) (d : String) : String :=
  match v with
  | none => d
  | some s => s

/-- Model of JavaScript `x || d` for a possibly-absent string value ("" is falsy). -/
def jsOrDefault (v : Option String) (d : String) : String :=
  match v with
  | none => d
  | some s => if s == "" then d else s

/-- Model of template interpolation of a possibly-undefined string value. -/
def jsTemplateOpt (v : Option String) : String :=
  match v with
  | none => "undefined"
  | some s => s

/-- A raw backend result record (shape per spec section 3 and the fields the source reads). -/
structure RawItem where
  item_name : Option String := none
  description : Option String := none
  image_path : Option String := none
  final_price : Option String := none
  special_price : Option String := none
  price : Option String := none
  colors : Option (List String) := none
  deriving Repr, DecidableEq

/-- Escaping of one character as performed by a DOM text-node serialization. -/
def escapeChar (c : Char) : String :=
  if c == '&' then "&amp;" else if c == '<' then "&lt;" else if c == '>' then "&gt;"
  else String.mk [c]

/-- escapeHtml from src/unnamed/part_001 lines 47-51: the div.textContent / div.innerHTML
    round trip serializes the text node, escaping the markup metacharacters. -/
def escapeHtml (s : String) : String :=
  String.join (s.data.map escapeChar)

/-- Price expression of src/static/furniture.js line 85:
    `item.final_price ?? item.price ?? ""`. -/
def furnitureDisplayPrice (item : RawItem) : String :=
  jsNullish item.final_price (jsNullish item.price "")

/-- Price expression of src/unnamed/part_001 line 88:
    `item.final_price ?? item.special_price ?? item.price ?? "N/A"`. -/
def part001DisplayPrice (item : RawItem) : String :=
  jsNullish item.final_price (jsNullish item.special_price (jsNullish item.price "N/A"))

/-- Image URL resolution of src/static/furniture.js lines 67-73. -/
def resolveImagePath (p : String) : String :=
  if jsStartsWith p "/static" then p
  else if jsStartsWith p "static" then "/" ++ p
  else "/static/uploads/" ++ jsSplitPop p

/-- Tag markup of furniture.js line 87: `(item.colors || []).map(...).join("")`. -/
def tagsHtml (colors : List String) : String :=
  String.join (colors.map (fun c => "<span class=\"tag\">" ++ c ++ "</span>"))

/-- The info.innerHTML template of furniture.js lines 82-89 (strings interpolated raw). -/
def furnitureInfoHtml (item : RawItem) : String :=
  "\n      <h3 class=\"result-title\">" ++ jsOrDefault item.item_name "" ++
  "</h3>\n      <p class=\"result-description\">" ++ jsOrDefault item.description "" ++
  "</p>\n      <div class=\"result-price\">" ++ furnitureDisplayPrice item ++
  "</div>\n      <div class=\"result-tags\">\n        " ++ tagsHtml (item.colors.getD []) ++
  "\n      </div>\n    "

/-- One rendered result block (image element attributes plus the info markup). -/
structure ResultBlock where
  imageSrc : String
  imageAlt : String
  infoHtml : String
  deriving Repr, DecidableEq

/-- Contents of the results region: raw markup assigned via innerHTML, or appended blocks. -/
inductive ResultsContent
  | htmlText (s : String)
  | blocksView (bs : List ResultBlock)
  deriving Repr, DecidableEq

/-- Visible state of the results region and its count label. -/
structure RenderState where
  countLabel : String
  content : ResultsContent
  deriving Repr, DecidableEq

/-- The no-results placeholder markup of furniture.js lines 48-53. -/
def noResultsHtml : String :=
  "\n      <div class=\"no-results\">\n        <i class=\"fas fa-search\"></i>\n        <h3>No results found</h3>\n        <p>Try different keywords or another image.</p>\n      </div>"

/-- The forEach body of furniture.js lines 57-93.  Reading `startsWith` on an absent
    image_path throws a TypeError, which aborts the whole iteration: only the blocks
    appended before the faulting record survive, and the flag records the exception. -/
def furnitureRenderLoop : List RawItem → List ResultBlock × Bool
  | [] => ([], false)
  | item :: rest =>
    match item.image_path with
    | none => ([], true)
    | some p =>
      let b : ResultBlock :=
        { imageSrc := resolveImagePath p
          imageAlt := jsOrDefault item.item_name "Furniture item"
          infoHtml := furnitureInfoHtml item }
      let r := furnitureRenderLoop rest
      (b :: r.1, r.2)

/-- The count label text of furniture.js line 45. -/
def countLabelFor (n : Nat) : String :=
  toString n ++ " " ++ (if n = 1 then "item" else "items")

/-- displayResults of furniture.js lines 43-94 as a function from the input list to the
    final visible state plus a thrown-exception flag.  The function does not read the
    prior region contents because line 44 clears them unconditionally. -/
def displayResultsCore (items : List RawItem) : RenderState × Bool :=
  if items.length = 0 then
    ({ countLabel := countLabelFor items.length, content := .htmlText noResultsHtml }, false)
  else
    let r := furnitureRenderLoop items
    ({ countLabel := countLabelFor items.length, content := .blocksView r.1 }, r.2)

/-- displayResults seen as a transition on the visible state: the prior state is taken
    as an argument (the real call site has it in the DOM) and discarded by the
    unconditional `resultsDiv.innerHTML = ""` of line 44. -/
def displayResultsStep (_prior : RenderState) (items : List RawItem) : RenderState :=
  (displayResultsCore items).1

/-- Number of result blocks visible in the results region. -/
def blocksCount : ResultsContent → Nat
  | .htmlText _ => 0
  | .blocksView bs => bs.length

/-- Parsed body of a suggestion response (`/suggest?q=`). -/
structure SuggestPayload where
  did_you_mean : Option String := none
  deriving Repr, DecidableEq

/-- A suggestion HTTP response: status information plus the JSON-parse result of the
    body (`none` means `resp.json()` rejected). -/
structure SuggestResp where
  ok : Bool := true
  status : Nat := 200
  json : Option SuggestPayload := none
  deriving Repr, DecidableEq

/-- Visible state of the suggestion view: `cleared` stands for
    `suggestionDiv.innerHTML = ""`, `shown h` for `suggestionDiv.innerHTML = h`. -/
inductive SuggView
  | cleared
  | shown (html : String)
  deriving Repr, DecidableEq

/-- The suggestion markup template of furniture.js line 32 (interpolated raw). -/
def furnitureSuggestionHtml (s : String) : String :=
  "Did you mean: <a href=\"#\" onclick=\"setSearchExample(\x27" ++ s ++
  "\x27)\">" ++ s ++ "</a>?"

/-- The response-handling part of fetchSuggestion, furniture.js lines 27-39, given the
    trimmed query `q` and the response (`none` = the fetch rejected).  The second
    component collects alert dialogs: this path only ever logs to the console, so it is
    `[]` in every branch.  Note the code never reads `resp.ok` or `resp.status`. -/
def fetchSuggestionRespond (q : String) (r : Option SuggestResp) : SuggView × List String :=
  match r with
  | none => (.cleared, [])
  | some resp =>
    match resp.json with
    | none => (.cleared, [])
    | some data =>
      match data.did_you_mean with
      | none => (.cleared, [])
      | some s =>
        -- `data.did_you_mean && data.did_you_mean.toLowerCase() !== q.toLowerCase()`:
        -- the truthiness test of the string, short-circuiting into the comparison
        if s = "" then (.cleared, [])
        else if jsToLower s = jsToLower q then (.cleared, [])
        else (.shown (furnitureSuggestionHtml s), [])

/-- Parsed body of a search response. -/
structure SearchPayload where
  results : Option (List RawItem) := none
  deriving Repr, DecidableEq

/-- A search HTTP response: status line, body text, and the JSON-parse result of the
    body (`none` means `resp.json()` rejected). -/
structure HttpResp where
  ok : Bool := true
  status : Nat := 200
  bodyText : String := ""
  json : Option SearchPayload := none
  deriving Repr, DecidableEq

/-- Combined user-visible page state touched by the search handlers. -/
structure UiState where
  render : RenderState
  suggestionHtml : String
  alerts : List String
  deriving Repr, DecidableEq

/-- Stand-in for the environment-dependent text of a caught JavaScript exception. -/
def jsCaughtText : String := "TypeError"

/-- The info.innerHTML template of src/unnamed/part_000 lines 38-45
    (`${item.item_name}` with no default, `item.price || ""`). -/
def part000InfoHtml (item : RawItem) : String :=
  "\n      <h3 class=\"result-title\">" ++ jsTemplateOpt item.item_name ++
  "</h3>\n      <p class=\"result-description\">" ++ jsOrDefault item.description "" ++
  "</p>\n      <div class=\"result-price\">" ++ jsOrDefault item.price "" ++
  "</div>\n      <div class=\"result-tags\">\n        " ++ tagsHtml (item.colors.getD []) ++
  "\n      </div>\n    "

/-- The forEach body of part_000 lines 22-49 (two-tier image resolution, raw alt). -/
def part000RenderLoop : List RawItem → List ResultBlock × Bool
  | [] => ([], false)
  | item :: rest =>
    match item.image_path with
    | none => ([], true)
    | some p =>
      let b : ResultBlock :=
        { imageSrc := if jsStartsWith p "/static" then p else "/static/" ++ jsSplitPop p
          imageAlt := jsTemplateOpt item.item_name
          infoHtml := part000InfoHtml item }
      let r := part000RenderLoop rest
      (b :: r.1, r.2)

/-- The no-results placeholder markup of part_000 lines 14-18. -/
def part000NoResultsHtml : String :=
  "<div class=\"no-results\">\n      <i class=\"fas fa-search\"></i>\n      <h3>No results found</h3>\n      <p>Try different keywords or another image.</p>\n    </div>"

/-- displayResults of part_000 lines 9-50, called with a possibly-undefined argument
    (part_000's searchImage passes `data.results` without a fallback).  On `undefined`,
    line 10 clears the region and line 11 then throws reading `items.length`, before
    the count label is updated. -/
def part000DisplayResults (prior : RenderState) (items : Option (List RawItem)) :
    RenderState × Bool :=
  match items with
  | none => ({ countLabel := prior.countLabel, content := .htmlText "" }, true)
  | some its =>
    if its.length = 0 then
      ({ countLabel := countLabelFor its.length, content := .htmlText part000NoResultsHtml },
        false)
    else
      let r := part000RenderLoop its
      ({ countLabel := countLabelFor its.length, content := .blocksView r.1 }, r.2)

/-- The response-handling part of part_000's searchImage, lines 79-85.  There is no
    `resp.ok` check: the body is parsed and rendered whatever the status was; any
    exception is caught and surfaced as the generic image-search failure message. -/
def part000SearchImageOnResp (st : UiState) (r : Option HttpResp) : UiState :=
  match r with
  | none => { st with alerts := st.alerts ++ ["Error fetching image results: " ++ jsCaughtText] }
  | some resp =>
    match resp.json with
    | none =>
      { st with alerts := st.alerts ++ ["Error fetching image results: " ++ jsCaughtText] }
    | some data =>
      let r2 := part000DisplayResults st.render data.results
      if r2.2 then
        { st with render := r2.1,
                  alerts := st.alerts ++ ["Error fetching image results: " ++ jsCaughtText] }
      else
        { st with render := r2.1 }

/-- The response-handling part of furniture.js searchText, lines 106-118 (the
    suggestion view was already cleared at line 104 before the fetch). -/
def furnitureSearchTextOnResp (st : UiState) (r : Option HttpResp) : UiState :=
  let st1 := { st with suggestionHtml := "" }
  match r with
  | none => { st1 with alerts := st1.alerts ++ ["Error fetching results: " ++ jsCaughtText] }
  | some resp =>
    if resp.ok then
      match resp.json with
      | none =>
        { st1 with alerts := st1.alerts ++ ["Error fetching results: " ++ jsCaughtText] }
      | some data =>
        let r2 := displayResultsCore (data.results.getD [])
        if r2.2 then
          { st1 with render := r2.1,
                     alerts := st1.alerts ++ ["Error fetching results: " ++ jsCaughtText] }
        else
          { st1 with render := r2.1 }
    else
      { st1 with alerts := st1.alerts ++ ["Error " ++ toString resp.status ++ ": " ++ resp.bodyText] }

/-- The response-handling part of furniture.js searchImage, lines 134-150. -/
def furnitureSearchImageOnResp (st : UiState) (r : Option HttpResp) : UiState :=
  let st1 := { st with suggestionHtml := "" }
  match r with
  | none =>
    { st1 with alerts := st1.alerts ++ ["Error fetching image results: " ++ jsCaughtText] }
  | some resp =>
    if resp.ok then
      match resp.json with
      | none =>
        { st1 with alerts := st1.alerts ++ ["Error fetching image results: " ++ jsCaughtText] }
      | some data =>
        let r2 := displayResultsCore (data.results.getD [])
        if r2.2 then
          { st1 with render := r2.1,
                     alerts := st1.alerts ++ ["Error fetching image results: " ++ jsCaughtText] }
        else
          { st1 with render := r2.1 }
    else
      { st1 with alerts := st1.alerts ++ ["Error " ++ toString resp.status ++ ": " ++ resp.bodyText] }

/-- Outcome of a debounce timer firing: fetchSuggestion either issues a request for the
    trimmed query or clears the suggestion view when the trimmed value is empty
    (furniture.js lines 20-25). -/
inductive FireResult
  | request (q : String)
  | clearView
  deriving Repr, DecidableEq

/-- What fetchSuggestion does when the timer fires with input value `v`. -/
def fireResult (v : String) : FireResult :=
  if jsTrim v = "" then .clearView else .request (jsTrim v)

/-- State of the debounce machinery: armed timers (kept as a list so that "at most one
    armed" is a provable fact rather than a modelling assumption), the fire outcomes so
    far, and the current input value. -/
structure DebState where
  armedTimers : List (Nat × String)
  fired : List FireResult
  inputValue : String
  deriving Repr, DecidableEq

/-- Initial debounce state: no timer, nothing fired, empty input. -/
def initDeb : DebState := { armedTimers := [], fired := [], inputValue := "" }

/-- One input-change event `(t, v)` (furniture.js lines 9-12): timers that were due
    before `t` have already fired, reading the input value current at fire time; then
    the handler runs `clearTimeout(debounceTimer)` - cancelling the stored timer - and
    arms a fresh one for `t + 300`. -/
def debStep (s : DebState) : Nat × String → DebState
  | (t, v) =>
    let due := s.armedTimers.filter (fun d => decide (d.1 ≤ t))
    let dueFired := due.map (fun _ => fireResult s.inputValue)
    { armedTimers := [(t + 300, v)], fired := s.fired ++ dueFired, inputValue := v }

/-- Run the debounce machine over a time-ordered list of input-change events. -/
def debRunAux : DebState → List (Nat × String) → DebState
  | s, [] => s
  | s, e :: rest => debRunAux (debStep s e) rest

/-- All fire outcomes of an event trace, letting any still-armed timer fire at the end
    (a quiet period follows the last keystroke). -/
def debounceFires (events : List (Nat × String)) : List FireResult :=
  let s := debRunAux initDeb events
  s.fired ++ s.armedTimers.map (fun _ => fireResult s.inputValue)

/-- The suggestion requests among a list of fire outcomes. -/
def requestsOf (l : List FireResult) : List String :=
  l.filterMap (fun f => match f with | .request q => some q | .clearView => none)

/-- A burst: each event arrives strictly within the 300 ms debounce window of the
    previous one. -/
def isBurst : List (Nat × String) → Bool
  | (t1, _) :: (t2, v2) :: rest => decide (t2 < t1 + 300) && isBurst ((t2, v2) :: rest)
  | _ => true

/-- The input value of the last event of a trace. -/
def lastVal (l : List (Nat × String)) : String :=
  (l.getLastD (0, "")).2

/-- Hexadecimal digit characters used by percent-encoding. -/
def hexDigitChar (n : Nat) : Char :=
  ['0', '1', '2', '3', '4', '5', '6', '7', '8', '9',
   'A', 'B', 'C', 'D', 'E', 'F'].getD n 'F'

/-- UTF-8 bytes of a character (as Nat values below 256). -/
def charUtf8Bytes (c : Char) : List Nat :=
  let n := c.toNat
  if n < 128 then [n]
  else if n < 2048 then [192 + n / 64, 128 + n % 64]
  else if n < 65536 then [224 + n / 4096, 128 + (n / 64) % 64, 128 + n % 64]
  else [240 + n / 262144, 128 + (n / 4096) % 64, 128 + (n / 64) % 64, 128 + n % 64]

/-- Percent-encoding of one byte. -/
def pctEncodeByte (b : Nat) : List Char :=
  ['%', hexDigitChar (b / 16), hexDigitChar (b % 16)]

/-- Characters that encodeURIComponent leaves unescaped. -/
def uriAllowedChar (c : Char) : Bool :=
  c.isAlpha || c.isDigit || c == '-' || c == '_' || c == '.' || c == '!' ||
    c == '~' || c == '*' || c == Char.ofNat 39 || c == '(' || c == ')'

/-- Encoding of one character under encodeURIComponent. -/
def encodeCharList (c : Char) : List Char :=
  if uriAllowedChar c then [c] else ((charUtf8Bytes c).map pctEncodeByte).flatten

/-- encodeURIComponent over a character list. -/
def encodeChars (l : List Char) : List Char :=
  (l.map encodeCharList).flatten

/-- Model of JavaScript's global encodeURIComponent. -/
def encodeURIComponent (s : String) : String :=
  String.mk (encodeChars s.data)

/-- The text-search request URL of furniture.js line 107. -/
def textSearchUrl (q : String) : String :=
  "/search/text?q=" ++ encodeURIComponent q ++ "&k=10"

/-- The image-search request URL of furniture.js line 135. -/
def imageSearchUrl : String := "/search/image?k=10"

/-- The suggestion request URL of furniture.js line 28. -/
def suggestUrl (q : String) : String :=
  "/suggest?q=" ++ encodeURIComponent q

/-- Everything after the first '?' of a URL. -/
def afterQm : List Char → List Char
  | [] => []
  | c :: rest => if c == '?' then rest else afterQm rest

/-- The '&'-separated query parameters of a URL. -/
def queryParamsOf (url : String) : List (List Char) :=
  splitListOn '&' (afterQm url.data)

/-- The query parameters that set the result-limit parameter `k`. -/
def limitParams (url : String) : List (List Char) :=
  (queryParamsOf url).filter (fun p => hasPrefixChars ['k', '='] p)

/-- Helper: regrouping the uploads prefix, so that the tier-3 URL visibly ends with
    "/uploads/" followed by the bare filename. -/
theorem staticUploadsAssoc (f : String) :
    "/static/uploads/" ++ f = "/static" ++ ("/uploads/" ++ f) := by
  cases f with
  | mk l => rfl

/-- C4: for a record with a non-empty image_path the resolved image URL follows the
    three-tier policy of furniture.js lines 67-73: a path already rooted at the static
    namespace is used unchanged; a path missing only the leading separator gets the
    root prefixed; otherwise the directory components are stripped and the bare
    filename is resolved under the uploads sub-path, giving a URL that ends with
    "/uploads/" followed by that filename. -/
theorem C4_image_url_policy (p : String) :
    (jsStartsWith p "/static" = true → resolveImagePath p = p) ∧
    (jsStartsWith p "/static" = false → jsStartsWith p "static" = true →
      resolveImagePath p = "/" ++ p) ∧
    (jsStartsWith p "/static" = false → jsStartsWith p "static" = false →
      resolveImagePath p = "/static/uploads/" ++ jsSplitPop p ∧
      ∃ pre : String, resolveImagePath p = pre ++ ("/uploads/" ++ jsSplitPop p)) := by
  refine ⟨fun h1 => ?_, fun h1 h2 => ?_, fun h1 h2 => ?_⟩
  · simp [resolveImagePath, h1]
  · simp [resolveImagePath, h1, h2]
  · have he : resolveImagePath p = "/static/uploads/" ++ jsSplitPop p := by
      simp [resolveImagePath, h1, h2]
    exact ⟨he, "/static", he.trans (staticUploadsAssoc (jsSplitPop p))⟩

/-- C4 witness: one concrete input per tier. -/
theorem C4_image_url_policy_witness :
    resolveImagePath "/static/uploads/a.jpg" = "/static/uploads/a.jpg" ∧
    resolveImagePath "static/uploads/b.jpg" = "/static/uploads/b.jpg" ∧
    resolveImagePath "/data/imgs/c.jpg" = "/static/uploads/c.jpg" := by
  refine ⟨(C4_image_url_policy "/static/uploads/a.jpg").1 (by decide), ?_, ?_⟩
  · exact ((C4_image_url_policy "static/uploads/b.jpg").2.1 (by decide) (by decide)).trans
      (by decide)
  · exact (((C4_image_url_policy "/data/imgs/c.jpg").2.2 (by decide) (by decide)).1).trans
      (by decide)

set_option maxRecDepth 8192 in
/-- C6: the renderer always sets the count label to the input cardinality with the
    correct singular/plural noun; the empty list yields "0 items", the visible
    no-results placeholder and zero result blocks; a one-element list yields the
    singular "1 item". -/
theorem C6_count_label_and_empty :
    (∀ items : List RawItem,
      (displayResultsCore items).1.countLabel =
        toString items.length ++ " " ++ (if items.length = 1 then "item" else "items")) ∧
    ((displayResultsCore []).1.countLabel = "0 items" ∧
      (displayResultsCore []).1.content = ResultsContent.htmlText noResultsHtml ∧
      blocksCount (displayResultsCore []).1.content = 0) ∧
    (∀ item : RawItem, (displayResultsCore [item]).1.countLabel = "1 item") := by
  refine ⟨fun items => ?_, ⟨?_, ?_, ?_⟩, fun item => ?_⟩
  · cases items with
    | nil => decide
    | cons a l => rfl
  · decide
  · decide
  · decide
  · show countLabelFor 1 = "1 item"
    decide

/-- C7: displayResults discards the prior region contents unconditionally (the result
    never depends on the prior visible state) and is therefore idempotent: rendering
    the same list twice leaves exactly the state of rendering it once. -/
theorem C7_full_repaint_idempotent :
    (∀ (s t : RenderState) (items : List RawItem),
      displayResultsStep s items = displayResultsStep t items) ∧
    (∀ (s : RenderState) (items : List RawItem),
      displayResultsStep (displayResultsStep s items) items = displayResultsStep s items) :=
  ⟨fun _ _ _ => rfl, fun _ _ => rfl⟩

/-- C2 counterexample: a record whose only price-like field is special_price=7 must,
    per the claim, display "7"; the rendering code of furniture.js line 85 never
    consults special_price and displays the empty sentinel instead. -/
theorem C2_special_price_skipped :
    furnitureDisplayPrice { image_path := some "a.jpg", special_price := some "7" } ≠ "7" := by
  decide

/-- C2 amended: in furniture.js the displayed price is the first non-nullish value
    among final_price then price (special_price is never consulted) with the empty
    string as sentinel; in revision part_001 the full chain final_price,
    special_price, price applies with sentinel "N/A".  In both, "present" means
    non-nullish: an empty-string value is displayed as-is, not skipped. -/
theorem C2_price_chain_amended :
    (∀ (item : RawItem) (v : String),
      item.final_price = some v → furnitureDisplayPrice item = v) ∧
    (∀ (item : RawItem) (v : String),
      item.final_price = none → item.price = some v → furnitureDisplayPrice item = v) ∧
    (∀ item : RawItem,
      item.final_price = none → item.price = none → furnitureDisplayPrice item = "") ∧
    (∀ (item : RawItem) (sp : Option String),
      furnitureDisplayPrice { item with special_price := sp } = furnitureDisplayPrice item) ∧
    (∀ (item : RawItem) (v : String),
      item.final_price = some v → part001DisplayPrice item = v) ∧
    (∀ (item : RawItem) (v : String),
      item.final_price = none → item.special_price = some v → part001DisplayPrice item = v) ∧
    (∀ (item : RawItem) (v : String),
      item.final_price = none → item.special_price = none → item.price = some v →
        part001DisplayPrice item = v) ∧
    (∀ item : RawItem,
      item.final_price = none → item.special_price = none → item.price = none →
        part001DisplayPrice item = "N/A") := by
  refine ⟨?_, ?_, ?_, ?_, ?_, ?_, ?_, ?_⟩ <;>
    intros <;> simp_all [furnitureDisplayPrice, part001DisplayPrice, jsNullish]

/-- C2 witness: the chains evaluated at the concrete records of the claim. -/
theorem C2_price_chain_amended_witness :
    furnitureDisplayPrice
      { image_path := some "a.jpg", final_price := some "5", special_price := some "7",
        price := some "9" } = "5" ∧
    furnitureDisplayPrice { image_path := some "a.jpg", price := some "9" } = "9" ∧
    furnitureDisplayPrice { image_path := some "a.jpg" } = "" ∧
    part001DisplayPrice { image_path := some "a.jpg", special_price := some "7" } = "7" ∧
    part001DisplayPrice { image_path := some "a.jpg" } = "N/A" :=
  ⟨C2_price_chain_amended.1 _ "5" rfl,
   C2_price_chain_amended.2.1 _ "9" rfl rfl,
   C2_price_chain_amended.2.2.1 _ rfl rfl,
   C2_price_chain_amended.2.2.2.2.2.1 _ "7" rfl rfl,
   C2_price_chain_amended.2.2.2.2.2.2.2 _ rfl rfl rfl⟩

/-- C3: rendering a list whose first record lacks image_path does not drop just that
    record: the forEach of furniture.js lines 57-93 throws a TypeError at that record,
    rendering zero blocks instead of the claimed two (with the same malformed record
    carrying an empty image_path, three blocks render instead of two). -/
theorem C3_malformed_record_aborts_render :
    blocksCount (displayResultsCore
      [ { item_name := some "Bad" },
        { item_name := some "A", image_path := some "a.jpg" },
        { item_name := some "B", image_path := some "b.jpg" } ]).1.content = 0 ∧
    (displayResultsCore
      [ { item_name := some "Bad" },
        { item_name := some "A", image_path := some "a.jpg" },
        { item_name := some "B", image_path := some "b.jpg" } ]).2 = true ∧
    blocksCount (displayResultsCore
      [ { item_name := some "Bad", image_path := some "" },
        { item_name := some "A", image_path := some "a.jpg" },
        { item_name := some "B", image_path := some "b.jpg" } ]).1.content = 3 := by
  decide

/-- C1: furniture.js interpolates backend strings into rendered markup without passing
    them through the escaping function: the rendered info markup for an item titled
    "<img onerror=x>" contains that markup verbatim (and so does the suggestion
    markup), while the escaping function would have neutralized it. -/
theorem C1_escaping_not_applied :
    strHasSub
      (furnitureInfoHtml { item_name := some "<img onerror=x>", image_path := some "a.jpg" })
      "<img onerror=x>" = true ∧
    strHasSub (escapeHtml "<img onerror=x>") "<img onerror=x>" = false ∧
    escapeHtml "<img onerror=x>" = "&lt;img onerror=x&gt;" ∧
    strHasSub (furnitureSuggestionHtml "<img onerror=x>") "<img onerror=x>" = true := by
  decide

/-- C8 counterexample: per the claim, a non-success status must clear the suggestion
    view; fetchSuggestion (furniture.js lines 27-39) never reads the response status,
    so a 404 whose body still parses to a differing did_you_mean renders the clickable
    suggestion. -/
theorem C8_nonsuccess_status_still_shown :
    (fetchSuggestionRespond "couch"
        (some { ok := false, status := 404, json := some { did_you_mean := some "sofa" } })).1 ≠
      SuggView.cleared ∧
    (fetchSuggestionRespond "couch"
        (some { ok := false, status := 404, json := some { did_you_mean := some "sofa" } })).1 =
      SuggView.shown (furnitureSuggestionHtml "sofa") := by
  decide

/-- C8 amended: after a suggestion request completes, the clickable "did you mean"
    entry is shown if and only if the response body parses to a did_you_mean that is
    non-empty and differs from the query under case-insensitive comparison - the HTTP
    status is never consulted; in every other case (network error, unparseable body,
    absent or empty or case-insensitively equal suggestion) the view is cleared, and no
    error is ever surfaced to the user (the alert list stays empty in all cases). -/
theorem C8_suggestion_amended (q : String) (r : Option SuggestResp) :
    (fetchSuggestionRespond q r).2 = [] ∧
    ((fetchSuggestionRespond q r).1 ≠ SuggView.cleared ↔
      ∃ s, ((r.bind SuggestResp.json).bind SuggestPayload.did_you_mean) = some s ∧
        s ≠ "" ∧ jsToLower s ≠ jsToLower q) ∧
    (∀ s, ((r.bind SuggestResp.json).bind SuggestPayload.did_you_mean) = some s →
      s ≠ "" → jsToLower s ≠ jsToLower q →
      (fetchSuggestionRespond q r).1 = SuggView.shown (furnitureSuggestionHtml s)) := by
  rcases r with _ | resp
  · refine ⟨rfl, by simp [fetchSuggestionRespond], by simp⟩
  · rcases hj : resp.json with _ | payload
    · refine ⟨?_, ?_, ?_⟩ <;> simp [fetchSuggestionRespond, hj]
    · rcases hd : payload.did_you_mean with _ | s
      · refine ⟨?_, ?_, ?_⟩ <;> simp [fetchSuggestionRespond, hj, hd]
      · by_cases h1 : s = ""
        · subst h1
          refine ⟨?_, ?_, ?_⟩ <;> simp [fetchSuggestionRespond, hj, hd]
        · by_cases h2 : jsToLower s = jsToLower q
          · refine ⟨?_, ?_, ?_⟩ <;> simp [fetchSuggestionRespond, hj, hd, h1, h2]
          · refine ⟨?_, ?_, ?_⟩ <;> simp [fetchSuggestionRespond, hj, hd, h1, h2]

/-- C8 witness: the amended theorem applied at a concrete differing suggestion. -/
theorem C8_suggestion_amended_witness :
    (fetchSuggestionRespond "couch"
        (some { ok := false, status := 500, json := some { did_you_mean := some "sofa" } })).1 =
      SuggView.shown (furnitureSuggestionHtml "sofa") ∧
    (fetchSuggestionRespond "couch"
        (some { ok := false, status := 500, json := some { did_you_mean := some "sofa" } })).2 =
      [] :=
  ⟨(C8_suggestion_amended "couch"
      (some { ok := false, status := 500, json := some { did_you_mean := some "sofa" } })).2.2
      "sofa" rfl (by decide) (by decide),
   (C8_suggestion_amended "couch"
      (some { ok := false, status := 500, json := some { did_you_mean := some "sofa" } })).1⟩

/-- C5: part_000's searchImage (lines 79-85) performs no response-success check.  On a
    500 response whose body happens to parse as JSON without a results field, the code
    reaches displayResults(undefined), which wipes the previously rendered results
    region before throwing; the user gets only the generic image-search failure
    message, with neither the status nor the body text in it. -/
theorem C5_part000_image_no_ok_check :
    let prior : UiState :=
      { render :=
          { countLabel := "1 item",
            content := .blocksView
              [{ imageSrc := "/static/uploads/a.jpg", imageAlt := "Sofa", infoHtml := "x" }] },
        suggestionHtml := "", alerts := [] }
    let resp : HttpResp :=
      { ok := false, status := 500, bodyText := "boom", json := some { results := none } }
    let st := part000SearchImageOnResp prior (some resp)
    st.render.content = ResultsContent.htmlText "" ∧
    st.render ≠ prior.render ∧
    st.alerts = ["Error fetching image results: " ++ jsCaughtText] ∧
    strHasSub (st.alerts.getD 0 "") "500" = false ∧
    strHasSub (st.alerts.getD 0 "") "boom" = false := by
  decide

/-- Supporting fact for the same dispatcher: in furniture.js both search handlers do
    check `resp.ok`, surface the status with the body text, and leave the results
    region untouched on a non-success response. -/
theorem furnitureNonOkLeavesRender (st : UiState) (resp : HttpResp)
    (h : resp.ok = false) :
    (furnitureSearchTextOnResp st (some resp)).render = st.render ∧
    (furnitureSearchTextOnResp st (some resp)).alerts =
      st.alerts ++ ["Error " ++ toString resp.status ++ ": " ++ resp.bodyText] ∧
    (furnitureSearchImageOnResp st (some resp)).render = st.render ∧
    (furnitureSearchImageOnResp st (some resp)).alerts =
      st.alerts ++ ["Error " ++ toString resp.status ++ ": " ++ resp.bodyText] := by
  refine ⟨?_, ?_, ?_, ?_⟩ <;> simp [furnitureSearchTextOnResp, furnitureSearchImageOnResp, h]

/-- Supporting witness: the non-success furniture.js behavior at a concrete state. -/
theorem furnitureNonOkLeavesRender_witness :
    (furnitureSearchTextOnResp
        { render := { countLabel := "0 items", content := .htmlText noResultsHtml },
          suggestionHtml := "", alerts := [] }
        (some { ok := false, status := 500, bodyText := "boom" })).render =
      { countLabel := "0 items", content := .htmlText noResultsHtml } :=
  (furnitureNonOkLeavesRender
    { render := { countLabel := "0 items", content := .htmlText noResultsHtml },
      suggestionHtml := "", alerts := [] }
    { ok := false, status := 500, bodyText := "boom" } rfl).1

/-- Helper: the debounce machine never has more than one armed timer. -/
theorem debRunAux_armed_le (events : List (Nat × String)) :
    ∀ s : DebState, s.armedTimers.length ≤ 1 →
      (debRunAux s events).armedTimers.length ≤ 1 := by
  induction events with
  | nil => intro s h; exact h
  | cons e rest ih =>
    intro s _h
    obtain ⟨t, v⟩ := e
    exact ih (debStep s (t, v)) (by simp [debStep])

/-- Helper: the last input value ignores earlier events. -/
theorem lastVal_cons_cons (a b : Nat × String) (l : List (Nat × String)) :
    lastVal (a :: b :: l) = lastVal (b :: l) := by
  simp [lastVal, List.getLastD]

/-- Helper: running the machine over the tail of a burst, with one timer just armed,
    ends with exactly one fire carrying the last input value. -/
theorem debRunAux_burst (rest : List (Nat × String)) :
    ∀ (t : Nat) (v : String) (fs : List FireResult),
      isBurst ((t, v) :: rest) = true →
      (debRunAux { armedTimers := [(t + 300, v)], fired := fs, inputValue := v } rest).fired ++
        (debRunAux { armedTimers := [(t + 300, v)], fired := fs, inputValue := v }
            rest).armedTimers.map
          (fun _ => fireResult
            (debRunAux { armedTimers := [(t + 300, v)], fired := fs, inputValue := v }
              rest).inputValue) =
        fs ++ [fireResult (lastVal ((t, v) :: rest))] := by
  induction rest with
  | nil =>
    intro t v fs _h
    simp [debRunAux, lastVal, List.getLastD]
  | cons e rest ih =>
    obtain ⟨t2, v2⟩ := e
    intro t v fs hb
    have hb' : (decide (t2 < t + 300) && isBurst ((t2, v2) :: rest)) = true := hb
    rw [Bool.and_eq_true] at hb'
    obtain ⟨h1, h2⟩ := hb'
    have hlt : t2 < t + 300 := of_decide_eq_true h1
    have hnd : decide (t + 300 ≤ t2) = false := decide_eq_false (by omega)
    have hstep :
        debStep { armedTimers := [(t + 300, v)], fired := fs, inputValue := v } (t2, v2) =
          { armedTimers := [(t2 + 300, v2)], fired := fs, inputValue := v2 } := by
      simp [debStep, List.filter, hnd]
    have hrun :
        debRunAux { armedTimers := [(t + 300, v)], fired := fs, inputValue := v }
            ((t2, v2) :: rest) =
          debRunAux { armedTimers := [(t2 + 300, v2)], fired := fs, inputValue := v2 } rest := by
      rw [show debRunAux { armedTimers := [(t + 300, v)], fired := fs, inputValue := v }
            ((t2, v2) :: rest) =
          debRunAux (debStep { armedTimers := [(t + 300, v)], fired := fs, inputValue := v }
            (t2, v2)) rest from rfl, hstep]
    rw [hrun, lastVal_cons_cons]
    exact ih t2 v2 fs h2

/-- C9: at most one debounce timer is ever armed (each input event cancels and
    re-arms); any burst of input changes whose gaps are all below the 300 ms delay
    produces exactly one fire, carrying the input value of the last change; a fire
    whose trimmed value is empty clears the view and issues no request, otherwise it
    issues exactly one request for the trimmed value. -/
theorem C9_debounce_behavior :
    (∀ events : List (Nat × String),
      (debRunAux initDeb events).armedTimers.length ≤ 1) ∧
    (∀ (t : Nat) (v : String) (rest : List (Nat × String)),
      isBurst ((t, v) :: rest) = true →
      debounceFires ((t, v) :: rest) = [fireResult (lastVal ((t, v) :: rest))]) ∧
    (∀ v : String, jsTrim v = "" → fireResult v = FireResult.clearView) ∧
    (∀ v : String, jsTrim v ≠ "" → fireResult v = FireResult.request (jsTrim v)) ∧
    (∀ (t : Nat) (v : String) (rest : List (Nat × String)),
      isBurst ((t, v) :: rest) = true →
      requestsOf (debounceFires ((t, v) :: rest)) =
        if jsTrim (lastVal ((t, v) :: rest)) = "" then []
        else [jsTrim (lastVal ((t, v) :: rest))]) := by
  have hburst : ∀ (t : Nat) (v : String) (rest : List (Nat × String)),
      isBurst ((t, v) :: rest) = true →
      debounceFires ((t, v) :: rest) = [fireResult (lastVal ((t, v) :: rest))] := by
    intro t v rest hb
    exact debRunAux_burst rest t v [] hb
  refine ⟨fun events => debRunAux_armed_le events initDeb (by simp [initDeb]),
    hburst, fun v h => by simp [fireResult, h], fun v h => by simp [fireResult, h],
    fun t v rest hb => ?_⟩
  rw [hburst t v rest hb]
  by_cases h : jsTrim (lastVal ((t, v) :: rest)) = "" <;>
    simp [requestsOf, fireResult, h]

/-- C9 witness: a three-keystroke burst with 100-150 ms gaps yields exactly one
    request, for the trimmed final value; a whitespace-only final value yields a
    cleared view and no request. -/
theorem C9_debounce_behavior_witness :
    isBurst [(0, "s"), (100, "so"), (250, " sofa ")] = true ∧
    debounceFires [(0, "s"), (100, "so"), (250, " sofa ")] = [FireResult.request "sofa"] ∧
    requestsOf (debounceFires [(0, "s"), (100, "so"), (250, " sofa ")]) = ["sofa"] ∧
    debounceFires [(0, "  ")] = [FireResult.clearView] := by
  refine ⟨by decide, ?_, ?_, ?_⟩
  · exact (C9_debounce_behavior.2.1 0 "s" [(100, "so"), (250, " sofa ")] (by decide)).trans
      (by decide)
  · exact (C9_debounce_behavior.2.2.2.2 0 "s" [(100, "so"), (250, " sofa ")] (by decide)).trans
      (by decide)
  · exact (C9_debounce_behavior.2.1 0 "  " [] (by decide)).trans (by decide)

/-- Helper: no hexadecimal digit character is a query-string separator. -/
theorem hexDigitChar_ne (n : Nat) : hexDigitChar n ≠ '&' ∧ hexDigitChar n ≠ '=' := by
  unfold hexDigitChar
  by_cases h : n < 16
  · interval_cases n <;> exact ⟨by decide, by decide⟩
  · rw [List.getD_eq_default _ _ (by simpa using Nat.not_lt.mp h)]
    exact ⟨by decide, by decide⟩

/-- Helper: no character of a percent-encoded byte is a query-string separator. -/
theorem pct_mem_ne (b : Nat) (c : Char) (hc : c ∈ pctEncodeByte b) :
    c ≠ '&' ∧ c ≠ '=' := by
  simp [pctEncodeByte] at hc
  rcases hc with rfl | rfl | rfl
  · exact ⟨by decide, by decide⟩
  · exact hexDigitChar_ne _
  · exact hexDigitChar_ne _

/-- Helper: no character left unescaped by encodeURIComponent is a separator. -/
theorem uriAllowed_ne (c : Char) (h : uriAllowedChar c = true) : c ≠ '&' ∧ c ≠ '=' := by
  constructor <;> rintro rfl <;> exact absurd h (by decide)

/-- Helper: encodeURIComponent output never contains the separators '&' or '='. -/
theorem encodeChars_ne_sep (l : List Char) :
    ∀ c ∈ encodeChars l, c ≠ '&' ∧ c ≠ '=' := by
  intro c hc
  unfold encodeChars at hc
  rw [List.mem_flatten] at hc
  obtain ⟨s, hs, hcs⟩ := hc
  rw [List.mem_map] at hs
  obtain ⟨d, _hd, rfl⟩ := hs
  unfold encodeCharList at hcs
  by_cases hall : uriAllowedChar d = true
  · rw [if_pos hall] at hcs
    simp at hcs
    subst hcs
    exact uriAllowed_ne _ hall
  · rw [if_neg hall] at hcs
    rw [List.mem_flatten] at hcs
    obtain ⟨s2, hs2, hcs2⟩ := hcs
    rw [List.mem_map] at hs2
    obtain ⟨b, _hb, rfl⟩ := hs2
    exact pct_mem_ne b c hcs2

/-- Helper: splitting at the first separator after a separator-free segment. -/
theorem splitAux_append_sep (sep : Char) (l2 : List Char) :
    ∀ l1 : List Char, (∀ c ∈ l1, c ≠ sep) →
      splitAux sep (l1 ++ sep :: l2) =
        (l1, (splitAux sep l2).1 :: (splitAux sep l2).2) := by
  intro l1
  induction l1 with
  | nil =>
    intro _
    simp [splitAux]
  | cons c l1 ih =>
    intro h
    have hc : c ≠ sep := h c (List.mem_cons_self c l1)
    have hcb : (c == sep) = false := by simp [hc]
    simp [splitAux, ih (fun d hd => h d (List.mem_cons_of_mem c hd)), hcb]

set_option maxRecDepth 8192 in
/-- C10: every search request URL built by the module carries the fixed result-limit
    parameter k=10 - for every text query the URL of furniture.js line 107 has exactly
    one k parameter, equal to "k=10", and so does the image-search URL of line 135. -/
theorem C10_fixed_result_limit :
    (∀ q : String, limitParams (textSearchUrl q) = [['k', '=', '1', '0']]) ∧
    limitParams imageSearchUrl = [['k', '=', '1', '0']] := by
  constructor
  · intro q
    have hafter : afterQm (textSearchUrl q).data =
        'q' :: '=' :: (encodeChars q.data ++ '&' :: ['k', '=', '1', '0']) := rfl
    have hsep : ∀ c ∈ 'q' :: '=' :: encodeChars q.data, c ≠ '&' := by
      intro c hc
      rcases List.mem_cons.mp hc with rfl | hc2
      · decide
      rcases List.mem_cons.mp hc2 with rfl | hc3
      · decide
      exact (encodeChars_ne_sep q.data c hc3).1
    have hsplit : splitListOn '&' (afterQm (textSearchUrl q).data) =
        ('q' :: '=' :: encodeChars q.data) :: [['k', '=', '1', '0']] := by
      rw [hafter]
      have hregroup : 'q' :: '=' :: (encodeChars q.data ++ '&' :: ['k', '=', '1', '0']) =
          ('q' :: '=' :: encodeChars q.data) ++ '&' :: ['k', '=', '1', '0'] := by simp
      rw [hregroup]
      unfold splitListOn
      rw [splitAux_append_sep '&' ['k', '=', '1', '0'] ('q' :: '=' :: encodeChars q.data) hsep]
      rfl
    have hfirst : hasPrefixChars ['k', '='] ('q' :: '=' :: encodeChars q.data) = false := rfl
    have hsecond : hasPrefixChars ['k', '='] ['k', '=', '1', '0'] = true := rfl
    unfold limitParams queryParamsOf
    rw [hsplit]
    simp [List.filter, hfirst, hsecond]
  · decide
